import Mathlib

/-! MidiMessage (src/core/midi/MidiMessage.h)

A shallow embedding of the `MidiMessage` value type.

Conventions of the embedding:
* a `uint8_t` is a `Nat` below 256; an `int` is an `Int`;
* where C++ converts an `int` expression to `uint8_t` (a call argument or a
  return value) the conversion is written out as `toUInt8`, reduction modulo 256;
* an enumeration value is its underlying number, because the code casts
  arbitrary status bytes to the enumeration types;
* the functions of the class that take a status byte (the static ones) live in
  `MidiMessage.Static`, the member functions of the same name in `MidiMessage`.
-/

namespace MidiMessage

/-- Conversion of a non-negative `int` to `uint8_t`. -/
def toUInt8 (x : Nat) : Nat := x % 256

/-- Conversion of an arbitrary `int` to `uint8_t`. -/
def intToUInt8 (x : Int) : Nat := (x % 256).toNat

/-! ## Channel (voice) messages -/

def NoteOff : Nat := 0x80
def NoteOn : Nat := 0x90
def KeyPressure : Nat := 0xa0
def ControlChange : Nat := 0xb0
def ProgramChange : Nat := 0xc0
def ChannelPressure : Nat := 0xd0
def PitchBend : Nat := 0xe0

/-- Number of data bytes of a channel message: the `switch` of the source,
with its `default` branch. -/
def channelMessageLength (message : Nat) : Int :=
  if message = NoteOff ∨ message = NoteOn ∨ message = KeyPressure ∨
      message = ControlChange ∨ message = PitchBend then 2
  else if message = ChannelPressure ∨ message = ProgramChange then 1
  else 0

/-! ## System (common) messages -/

def SystemExclusive : Nat := 0xf0
def TimeCode : Nat := 0xf1
def SongPosition : Nat := 0xf2
def SongSelect : Nat := 0xf3
def TuneRequest : Nat := 0xf6
def EndOfExclusive : Nat := 0xf7

/-- Number of data bytes of a system message: the `switch` of the source,
with its `default` branch. -/
def systemMessageLength (message : Nat) : Int :=
  if message = TimeCode ∨ message = SongSelect then 1
  else if message = SongPosition then 2
  else 0

/-! ## (System) realtime messages -/

def Tick : Nat := 0xf8
def Start : Nat := 0xfa
def Continue : Nat := 0xfb
def Stop : Nat := 0xfc
def ActiveSensing : Nat := 0xfe
def Reset : Nat := 0xff

namespace Static

/-- The static `isChannelMessage(uint8_t status)`. -/
def isChannelMessage (status : Nat) : Bool :=
  decide ((status &&& 0xf0) ≥ 0x80) && decide ((status &&& 0xf0) < 0xf0)

/-- The static `template<uint8_t ChannelMessage> isChannelMessage(uint8_t status)`;
the template argument is the first argument. -/
def isChannelMessageT (ChannelMessage : Nat) (status : Nat) : Bool :=
  (status &&& 0xf0) == ChannelMessage

/-- The static `channelMessage(uint8_t status)`: the cast `ChannelMessage(status & 0xf0)`. -/
def channelMessage (status : Nat) : Nat := status &&& 0xf0

/-- The static `isSystemMessage(uint8_t status)`. -/
def isSystemMessage (status : Nat) : Bool := (status &&& 0xf8) == 0xf0

/-- The static `template<uint8_t SystemMessage> isSystemMessage(uint8_t status)`. -/
def isSystemMessageT (SystemMessage : Nat) (status : Nat) : Bool :=
  status == SystemMessage

/-- The static `systemMessage(uint8_t status)`: the cast `SystemMessage(status)`. -/
def systemMessage (status : Nat) : Nat := status

/-- The static `isRealTimeMessage(uint8_t status)`. -/
def isRealTimeMessage (status : Nat) : Bool := (status &&& 0xf8) == 0xf8

/-- The static `template<uint8_t RealTimeMessage> isRealTimeMessage(uint8_t status)`. -/
def isRealTimeMessageT (RealTimeMessage : Nat) (status : Nat) : Bool :=
  status == RealTimeMessage

/-- The static `realTimeMessage(uint8_t status)`: the cast `RealTimeMessage(status)`. -/
def realTimeMessage (status : Nat) : Nat := status

/-- The static `isClockMessage(uint8_t status)`. -/
def isClockMessage (status : Nat) : Bool :=
  isRealTimeMessage status && (
    status == Tick ||
    status == Start ||
    status == Continue ||
    status == Stop)

end Static

end MidiMessage

/-- The private data of the class: `uint8_t _raw[3]` and `uint8_t _length`. -/
structure MidiMessage where
  _raw : Nat × Nat × Nat
  _length : Nat
deriving DecidableEq, Repr

namespace MidiMessage

/-! ## Message data -/

def status (m : MidiMessage) : Nat := m._raw.1
def data0 (m : MidiMessage) : Nat := m._raw.2.1
def data1 (m : MidiMessage) : Nat := m._raw.2.2

def raw (m : MidiMessage) : Nat × Nat × Nat := m._raw
def length (m : MidiMessage) : Nat := m._length

/-! ## Channel messages -/

def isChannelMessage (m : MidiMessage) : Bool := Static.isChannelMessage m.status

def channelMessage (m : MidiMessage) : Nat := Static.channelMessage m.status

def channel (m : MidiMessage) : Nat := toUInt8 (m.status &&& 0xf)

def isNoteOff (m : MidiMessage) : Bool := Static.isChannelMessageT NoteOff m.status

def isNoteOn (m : MidiMessage) : Bool := Static.isChannelMessageT NoteOn m.status

def note (m : MidiMessage) : Nat := m.data0

def velocity (m : MidiMessage) : Nat := m.data1

def isKeyPressure (m : MidiMessage) : Bool := Static.isChannelMessageT KeyPressure m.status

def keyPressure (m : MidiMessage) : Nat := m.data1

def isControlChange (m : MidiMessage) : Bool := Static.isChannelMessageT ControlChange m.status

def controllerNumber (m : MidiMessage) : Nat := m.data0

def controllerValue (m : MidiMessage) : Nat := m.data1

def isProgramChange (m : MidiMessage) : Bool := Static.isChannelMessageT ProgramChange m.status

def programNumber (m : MidiMessage) : Nat := m.data0

def isChannelPressure (m : MidiMessage) : Bool :=
  Static.isChannelMessageT ChannelPressure m.status

def channelPressure (m : MidiMessage) : Nat := m.data0

def isPitchBend (m : MidiMessage) : Bool := Static.isChannelMessageT PitchBend m.status

/-- The member `pitchBend()`: `(int(data1()) << 7 | int(data0())) - int(0x2000)`. -/
def pitchBend (m : MidiMessage) : Int :=
  (((m.data1 <<< 7) ||| m.data0 : Nat) : Int) - (0x2000 : Int)

/-! ## System messages -/

def isSystemMessage (m : MidiMessage) : Bool := Static.isSystemMessage m.status

def systemMessage (m : MidiMessage) : Nat := Static.systemMessage m.status

def isSystemExclusive (m : MidiMessage) : Bool := Static.isSystemMessageT SystemExclusive m.status
def isTimeCode (m : MidiMessage) : Bool := Static.isSystemMessageT TimeCode m.status
def isSongPosition (m : MidiMessage) : Bool := Static.isSystemMessageT SongPosition m.status
def isSongSelect (m : MidiMessage) : Bool := Static.isSystemMessageT SongSelect m.status
def isTuneRequest (m : MidiMessage) : Bool := Static.isSystemMessageT TuneRequest m.status

/-- The member `songPosition()`: `(int(data1()) << 7 | int(data0()))`. -/
def songPosition (m : MidiMessage) : Int :=
  (((m.data1 <<< 7) ||| m.data0 : Nat) : Int)

def songNumber (m : MidiMessage) : Nat := m.data0

/-! ## Real-time messages -/

def isRealTimeMessage (m : MidiMessage) : Bool := Static.isRealTimeMessage m.status

def realTimeMessage (m : MidiMessage) : Nat := Static.realTimeMessage m.status

def isClockMessage (m : MidiMessage) : Bool := Static.isClockMessage m.status

def isTick (m : MidiMessage) : Bool := Static.isRealTimeMessageT Tick m.status
def isStart (m : MidiMessage) : Bool := Static.isRealTimeMessageT Start m.status
def isContinue (m : MidiMessage) : Bool := Static.isRealTimeMessageT Continue m.status
def isStop (m : MidiMessage) : Bool := Static.isRealTimeMessageT Stop m.status
def isActiveSensing (m : MidiMessage) : Bool := Static.isRealTimeMessageT ActiveSensing m.status
def isReset (m : MidiMessage) : Bool := Static.isRealTimeMessageT Reset m.status

/-! ## Constructors -/

/-- The defaulted constructor `MidiMessage() = default`: `_length` takes its
member initialiser 0 and `_raw` is left uninitialised, so its content is a
parameter here. -/
def ctor0 (indeterminate : Nat × Nat × Nat) : MidiMessage :=
  { _raw := indeterminate, _length := 0 }

/-- The constructor `MidiMessage(uint8_t status)`: `_raw { status }` zero-fills the
remaining elements. -/
def ctor1 (status : Nat) : MidiMessage :=
  { _raw := (status, 0, 0), _length := 1 }

/-- The constructor `MidiMessage(uint8_t status, uint8_t data0)`. -/
def ctor2 (status data0 : Nat) : MidiMessage :=
  { _raw := (status, data0, 0), _length := 2 }

/-- The constructor `MidiMessage(uint8_t status, uint8_t data0, uint8_t data1)`. -/
def ctor3 (status data0 data1 : Nat) : MidiMessage :=
  { _raw := (status, data0, data1), _length := 3 }

/-! ## Factories -/

def makeNoteOff (channel note : Nat) (velocity : Nat := 0) : MidiMessage :=
  ctor3 (toUInt8 (NoteOff ||| channel)) note velocity

def makeNoteOn (channel note : Nat) (velocity : Nat := 127) : MidiMessage :=
  ctor3 (toUInt8 (NoteOn ||| channel)) note velocity

def makeKeyPressure (channel note pressure : Nat) : MidiMessage :=
  ctor3 (toUInt8 (KeyPressure ||| channel)) note pressure

def makeControlChange (channel controllerNumber controllerValue : Nat) : MidiMessage :=
  ctor3 (toUInt8 (ControlChange ||| channel)) controllerNumber controllerValue

def makeProgramChange (channel programNumber : Nat) : MidiMessage :=
  ctor2 (toUInt8 (ProgramChange ||| channel)) programNumber

def makeChannelPressure (channel pressure : Nat) : MidiMessage :=
  ctor2 (toUInt8 (ChannelPressure ||| channel)) pressure

/-- The function `std::min` on `int`: `(b < a) ? b : a`. -/
def stdMin (a b : Int) : Int := if b < a then b else a

/-- The function `std::max` on `int`: `(a < b) ? b : a`. -/
def stdMax (a b : Int) : Int := if a < b then b else a

/-- The clamp expression of `makePitchBend`:
`std::min(0, std::max(0x3fff, pitchBend + 0x2000))`; the addition is
taken without overflow. -/
def makePitchBendClamp (pitchBend : Int) : Int :=
  stdMin 0 (stdMax 0x3fff (pitchBend + 0x2000))

/-- The factory `makePitchBend(uint8_t channel, int pitchBend)`; the two data
arguments `pitchBend & 0x7f` and `(pitchBend >> 7) & 0x7f` are `int`
expressions converted to `uint8_t`. -/
def makePitchBend (channel : Nat) (pitchBend : Int) : MidiMessage :=
  let pitchBend := makePitchBendClamp pitchBend
  ctor3 (toUInt8 (PitchBend ||| channel))
    (intToUInt8 (Int.land pitchBend 0x7f)) (intToUInt8 (Int.land (pitchBend >>> 7) 0x7f))

end MidiMessage

/-! ## Properties -/

namespace MidiMessage

/-- Shift-and-or of a 7-bit low part is multiply-and-add: the 14-bit value
that `pitchBend()` and `songPosition()` assemble. -/
theorem shiftLeft7_lor (hi lo : Nat) (hlo : lo < 128) :
    ((hi <<< 7) ||| lo) = hi * 128 + lo := by
  have h := Nat.mul_add_lt_is_or (show lo < 2 ^ 7 by omega) hi
  rw [Nat.shiftLeft_eq, Nat.mul_comm hi (2 ^ 7), ← h]

/-- The data-byte count of a status byte as a function of its high nibble only. -/
theorem channelMessageLength_highNibble :
    ∀ s, s < 256 →
      channelMessageLength (Static.channelMessage s) =
        (if s / 16 = 0x8 ∨ s / 16 = 0x9 ∨ s / 16 = 0xa ∨ s / 16 = 0xb ∨ s / 16 = 0xe then 2
         else if s / 16 = 0xc ∨ s / 16 = 0xd then 1 else 0) := by
  set_option maxRecDepth 100000 in decide

/-- C1: every status byte below 0x80 is in none of the three categories, and
every status byte from 0x80 on is in exactly one of them: the channel
messages are 0x80..0xEF, the system messages 0xF0..0xF7 and the real-time
messages 0xF8..0xFF. -/
theorem status_categories (s : Nat) (hs : s < 256) :
    (s < 0x80 →
      Static.isChannelMessage s = false ∧ Static.isSystemMessage s = false ∧
        Static.isRealTimeMessage s = false) ∧
    (0x80 ≤ s → s ≤ 0xEF →
      Static.isChannelMessage s = true ∧ Static.isSystemMessage s = false ∧
        Static.isRealTimeMessage s = false) ∧
    (0xF0 ≤ s → s ≤ 0xF7 →
      Static.isChannelMessage s = false ∧ Static.isSystemMessage s = true ∧
        Static.isRealTimeMessage s = false) ∧
    (0xF8 ≤ s → s ≤ 0xFF →
      Static.isChannelMessage s = false ∧ Static.isSystemMessage s = false ∧
        Static.isRealTimeMessage s = true) := by
  revert s
  set_option maxRecDepth 100000 in
  set_option synthInstance.maxSize 2000 in
  decide

/-- The status byte 0x9A is a channel message and nothing else. -/
theorem status_categories_witness :
    Static.isChannelMessage 0x9A = true ∧ Static.isSystemMessage 0x9A = false ∧
      Static.isRealTimeMessage 0x9A = false :=
  (status_categories 0x9A (by decide)).2.1 (by decide) (by decide)

/-- C2: a NoteOn built from a channel in 0..15, a note in 0..127 and a
velocity in 0..127 reads back that note, that velocity and that channel. -/
theorem makeNoteOn_round_trip (channel note velocity : Nat)
    (hc : channel < 16) (_hn : note < 128) (_hv : velocity < 128) :
    (makeNoteOn channel note velocity).note = note ∧
    (makeNoteOn channel note velocity).velocity = velocity ∧
    (makeNoteOn channel note velocity).channel = channel := by
  have key : ∀ c, c < 16 → toUInt8 (toUInt8 (NoteOn ||| c) &&& 0xf) = c := by decide
  exact ⟨rfl, rfl, key channel hc⟩

/-- The NoteOn of channel 9, note 60, velocity 100 reads back 60, 100 and 9. -/
theorem makeNoteOn_round_trip_witness :
    (makeNoteOn 9 60 100).note = 60 ∧ (makeNoteOn 9 60 100).velocity = 100 ∧
      (makeNoteOn 9 60 100).channel = 9 :=
  makeNoteOn_round_trip 9 60 100 (by decide) (by decide) (by decide)

/-- C3: the pitch bend built from the centre value 0 on channel 0 has both data
bytes 0 and decodes to -8192, not to 0: the round trip fails there, and it
fails the same way at the representative values -1, 1 and 8191. -/
theorem makePitchBend_center_decodes_lowest :
    makePitchBendClamp 0 = 0 ∧
    makePitchBend 0 0 = ctor3 0xE0 0 0 ∧
    (makePitchBend 0 0).pitchBend = -8192 ∧
    (makePitchBend 0 0).pitchBend ≠ 0 ∧
    (makePitchBend 0 (-1)).pitchBend = -8192 ∧
    (makePitchBend 0 1).pitchBend = -8192 ∧
    (makePitchBend 0 8191).pitchBend = -8192 := by
  decide

/-- The status byte a factory builds from a channel in 0..15, for each of the
seven channel-message enumerators: its low nibble, its category and its
enumerator. -/
theorem factory_status_byte :
    ∀ c, c < 16 → ∀ e, e ∈ [NoteOff, NoteOn, KeyPressure, ControlChange, ProgramChange,
        ChannelPressure, PitchBend] →
      toUInt8 (toUInt8 (e ||| c) &&& 0xf) = c ∧
      Static.isChannelMessage (toUInt8 (e ||| c)) = true ∧
      Static.channelMessage (toUInt8 (e ||| c)) = e ∧
      Static.isChannelMessageT e (toUInt8 (e ||| c)) = true := by
  decide

/-- C4: for a channel in 0..15 and any other arguments, each of the seven
factories builds a message whose channel is the supplied one, which is a
channel message, whose enumerator is the one of the factory and for which
the exact-match predicate of the factory holds. -/
theorem factory_status_round_trip (channel : Nat) (hc : channel < 16) (a b : Nat) (v : Int) :
    ((makeNoteOff channel a b).channel = channel ∧
      (makeNoteOff channel a b).isChannelMessage = true ∧
      (makeNoteOff channel a b).channelMessage = NoteOff ∧
      (makeNoteOff channel a b).isNoteOff = true) ∧
    ((makeNoteOn channel a b).channel = channel ∧
      (makeNoteOn channel a b).isChannelMessage = true ∧
      (makeNoteOn channel a b).channelMessage = NoteOn ∧
      (makeNoteOn channel a b).isNoteOn = true) ∧
    ((makeKeyPressure channel a b).channel = channel ∧
      (makeKeyPressure channel a b).isChannelMessage = true ∧
      (makeKeyPressure channel a b).channelMessage = KeyPressure ∧
      (makeKeyPressure channel a b).isKeyPressure = true) ∧
    ((makeControlChange channel a b).channel = channel ∧
      (makeControlChange channel a b).isChannelMessage = true ∧
      (makeControlChange channel a b).channelMessage = ControlChange ∧
      (makeControlChange channel a b).isControlChange = true) ∧
    ((makeProgramChange channel a).channel = channel ∧
      (makeProgramChange channel a).isChannelMessage = true ∧
      (makeProgramChange channel a).channelMessage = ProgramChange ∧
      (makeProgramChange channel a).isProgramChange = true) ∧
    ((makeChannelPressure channel a).channel = channel ∧
      (makeChannelPressure channel a).isChannelMessage = true ∧
      (makeChannelPressure channel a).channelMessage = ChannelPressure ∧
      (makeChannelPressure channel a).isChannelPressure = true) ∧
    ((makePitchBend channel v).channel = channel ∧
      (makePitchBend channel v).isChannelMessage = true ∧
      (makePitchBend channel v).channelMessage = PitchBend ∧
      (makePitchBend channel v).isPitchBend = true) := by
  have key := factory_status_byte channel hc
  exact ⟨key NoteOff (by decide), key NoteOn (by decide), key KeyPressure (by decide),
    key ControlChange (by decide), key ProgramChange (by decide),
    key ChannelPressure (by decide), key PitchBend (by decide)⟩

/-- The pitch bend factory on channel 5 builds a PitchBend message of channel 5. -/
theorem factory_status_round_trip_witness :
    (makePitchBend 5 100).channel = 5 ∧
      (makePitchBend 5 100).isChannelMessage = true ∧
      (makePitchBend 5 100).channelMessage = PitchBend ∧
      (makePitchBend 5 100).isPitchBend = true :=
  (factory_status_round_trip 5 (by decide) 0 0 100).2.2.2.2.2.2

/-- C5: for a channel in 0..15 and any other arguments, the stored length of a
factory-built message is one more than the data-byte count of its
enumerator: 3 for NoteOff, NoteOn, KeyPressure, ControlChange and PitchBend,
2 for ProgramChange and ChannelPressure. -/
theorem factory_length_invariant (channel : Nat) (hc : channel < 16) (a b : Nat) (v : Int) :
    (((makeNoteOff channel a b).length : Int) =
        1 + channelMessageLength (makeNoteOff channel a b).channelMessage ∧
      (makeNoteOff channel a b).length = 3) ∧
    (((makeNoteOn channel a b).length : Int) =
        1 + channelMessageLength (makeNoteOn channel a b).channelMessage ∧
      (makeNoteOn channel a b).length = 3) ∧
    (((makeKeyPressure channel a b).length : Int) =
        1 + channelMessageLength (makeKeyPressure channel a b).channelMessage ∧
      (makeKeyPressure channel a b).length = 3) ∧
    (((makeControlChange channel a b).length : Int) =
        1 + channelMessageLength (makeControlChange channel a b).channelMessage ∧
      (makeControlChange channel a b).length = 3) ∧
    (((makeProgramChange channel a).length : Int) =
        1 + channelMessageLength (makeProgramChange channel a).channelMessage ∧
      (makeProgramChange channel a).length = 2) ∧
    (((makeChannelPressure channel a).length : Int) =
        1 + channelMessageLength (makeChannelPressure channel a).channelMessage ∧
      (makeChannelPressure channel a).length = 2) ∧
    (((makePitchBend channel v).length : Int) =
        1 + channelMessageLength (makePitchBend channel v).channelMessage ∧
      (makePitchBend channel v).length = 3) := by
  have key := factory_status_byte channel hc
  have e1 : (makeNoteOff channel a b).channelMessage = NoteOff := (key NoteOff (by decide)).2.2.1
  have e2 : (makeNoteOn channel a b).channelMessage = NoteOn := (key NoteOn (by decide)).2.2.1
  have e3 : (makeKeyPressure channel a b).channelMessage = KeyPressure :=
    (key KeyPressure (by decide)).2.2.1
  have e4 : (makeControlChange channel a b).channelMessage = ControlChange :=
    (key ControlChange (by decide)).2.2.1
  have e5 : (makeProgramChange channel a).channelMessage = ProgramChange :=
    (key ProgramChange (by decide)).2.2.1
  have e6 : (makeChannelPressure channel a).channelMessage = ChannelPressure :=
    (key ChannelPressure (by decide)).2.2.1
  have e7 : (makePitchBend channel v).channelMessage = PitchBend :=
    (key PitchBend (by decide)).2.2.1
  rw [e1, e2, e3, e4, e5, e6, e7]
  exact ⟨⟨rfl, rfl⟩, ⟨rfl, rfl⟩, ⟨rfl, rfl⟩, ⟨rfl, rfl⟩, ⟨rfl, rfl⟩, ⟨rfl, rfl⟩, ⟨rfl, rfl⟩⟩

/-- The program change of channel 2 has length 2, one more than the single
data byte of ProgramChange. -/
theorem factory_length_invariant_witness :
    ((makeProgramChange 2 7).length : Int) =
        1 + channelMessageLength (makeProgramChange 2 7).channelMessage ∧
      (makeProgramChange 2 7).length = 2 :=
  (factory_length_invariant 2 (by decide) 7 0 0).2.2.2.2.1

/-- C6: the remaining factories store their data arguments where the accessors
read them: NoteOff gives back note and velocity, KeyPressure note and
pressure, ControlChange controller number and value, ProgramChange the
program number, ChannelPressure the pressure; this holds for any arguments,
so for all byte arguments. -/
theorem factory_field_round_trip (c n v p k x : Nat) :
    ((makeNoteOff c n v).note = n ∧ (makeNoteOff c n v).velocity = v) ∧
    ((makeKeyPressure c n p).note = n ∧ (makeKeyPressure c n p).keyPressure = p) ∧
    ((makeControlChange c k x).controllerNumber = k ∧
      (makeControlChange c k x).controllerValue = x) ∧
    (makeProgramChange c p).programNumber = p ∧
    (makeChannelPressure c p).channelPressure = p :=
  ⟨⟨rfl, rfl⟩, ⟨rfl, rfl⟩, ⟨rfl, rfl⟩, rfl, rfl⟩

/-- C7: on a 3-byte message whose two data bytes are in 0..127, `pitchBend()`
is `data1 * 128 + data0 - 8192`, lies between -8192 and 8191, and is 0
exactly when `data0` is 0 and `data1` is 0x40. -/
theorem pitchBend_decode (status data0 data1 : Nat) (h0 : data0 < 128) (h1 : data1 < 128) :
    (ctor3 status data0 data1).pitchBend = (data1 : Int) * 128 + (data0 : Int) - 8192 ∧
    -8192 ≤ (ctor3 status data0 data1).pitchBend ∧
    (ctor3 status data0 data1).pitchBend ≤ 8191 ∧
    ((ctor3 status data0 data1).pitchBend = 0 ↔ data0 = 0 ∧ data1 = 0x40) := by
  have e : (ctor3 status data0 data1).pitchBend =
      (data1 : Int) * 128 + (data0 : Int) - 8192 := by
    show (((data1 <<< 7) ||| data0 : Nat) : Int) - (0x2000 : Int) = _
    rw [shiftLeft7_lor data1 data0 h0]
    push_cast
    rfl
  rw [e]
  refine ⟨rfl, ?_, ?_, ?_⟩ <;> omega

/-- The data bytes 0x00, 0x40 decode to the centre 0. -/
theorem pitchBend_decode_witness : (ctor3 0xE0 0 0x40).pitchBend = 0 :=
  ((pitchBend_decode 0xE0 0 0x40 (by decide) (by decide)).2.2.2).mpr ⟨rfl, rfl⟩

/-- C8: on a 3-byte message whose two data bytes are in 0..127, `songPosition()`
is `data1 * 128 + data0` with no offset and lies between 0 and 16383; the
data bytes 0x7F, 0x7F give 16383 and the data bytes 0, 0 give 0. -/
theorem songPosition_decode (status data0 data1 : Nat) (h0 : data0 < 128) (h1 : data1 < 128) :
    (ctor3 status data0 data1).songPosition = (data1 : Int) * 128 + (data0 : Int) ∧
    0 ≤ (ctor3 status data0 data1).songPosition ∧
    (ctor3 status data0 data1).songPosition ≤ 16383 ∧
    (ctor3 status 0x7F 0x7F).songPosition = 16383 ∧
    (ctor3 status 0 0).songPosition = 0 := by
  have e : (ctor3 status data0 data1).songPosition = (data1 : Int) * 128 + (data0 : Int) := by
    show (((data1 <<< 7) ||| data0 : Nat) : Int) = _
    rw [shiftLeft7_lor data1 data0 h0]
    push_cast
    rfl
  rw [e]
  refine ⟨rfl, ?_, ?_, ?_, ?_⟩
  · omega
  · omega
  · show (((0x7F <<< 7) ||| 0x7F : Nat) : Int) = 16383
    decide
  · show (((0 <<< 7) ||| 0 : Nat) : Int) = 0
    decide

/-- The data bytes 0x03, 0x02 of a SongPosition message decode to 259. -/
theorem songPosition_decode_witness : (ctor3 0xF2 3 2).songPosition = 259 :=
  (songPosition_decode 0xF2 3 2 (by decide) (by decide)).1

/-- C9: a status byte is a clock message exactly when it is Tick, Start,
Continue or Stop; a clock message is a real-time message; ActiveSensing,
Reset and the reserved bytes 0xF9 and 0xFD are not clock messages. -/
theorem isClockMessage_iff (s : Nat) (hs : s < 256) :
    (Static.isClockMessage s = true ↔ s = Tick ∨ s = Start ∨ s = Continue ∨ s = Stop) ∧
    (Static.isClockMessage s = true → Static.isRealTimeMessage s = true) ∧
    Static.isClockMessage ActiveSensing = false ∧
    Static.isClockMessage Reset = false ∧
    Static.isClockMessage 0xF9 = false ∧
    Static.isClockMessage 0xFD = false := by
  revert s
  set_option maxRecDepth 100000 in
  set_option synthInstance.maxSize 2000 in
  decide

/-- Start is a clock message and a real-time message. -/
theorem isClockMessage_iff_witness :
    Static.isClockMessage Start = true ∧ Static.isRealTimeMessage Start = true :=
  ⟨(isClockMessage_iff Start (by decide)).1.mpr (Or.inr (Or.inl rfl)),
    (isClockMessage_iff Start (by decide)).2.1
      ((isClockMessage_iff Start (by decide)).1.mpr (Or.inr (Or.inl rfl)))⟩

/-- C10: the data-byte count of the enumerator of a status byte is 2 when the
high nibble is 0x8, 0x9, 0xA, 0xB or 0xE, 1 when it is 0xC or 0xD, and 0
otherwise (below 0x80 or from 0xF0 on); two status bytes with the same high
nibble have the same count, whatever their low nibbles. -/
theorem channelMessageLength_table (s : Nat) (hs : s < 256) :
    (s / 16 = 0x8 ∨ s / 16 = 0x9 ∨ s / 16 = 0xA ∨ s / 16 = 0xB ∨ s / 16 = 0xE →
      channelMessageLength (Static.channelMessage s) = 2) ∧
    (s / 16 = 0xC ∨ s / 16 = 0xD →
      channelMessageLength (Static.channelMessage s) = 1) ∧
    (s < 0x80 ∨ 0xF0 ≤ s →
      channelMessageLength (Static.channelMessage s) = 0) ∧
    (∀ t, t < 256 → t / 16 = s / 16 →
      channelMessageLength (Static.channelMessage t) =
        channelMessageLength (Static.channelMessage s)) := by
  have key := channelMessageLength_highNibble
  refine ⟨?_, ?_, ?_, ?_⟩
  · intro h
    rw [key s hs, if_pos h]
  · intro h
    rw [key s hs, if_neg (by omega), if_pos h]
  · intro h
    rw [key s hs, if_neg (by omega), if_neg (by omega)]
  · intro t ht e
    rw [key s hs, key t ht, e]

/-- The NoteOn status byte of channel 3 has 2 data bytes, as has the one of
channel 12. -/
theorem channelMessageLength_table_witness :
    channelMessageLength (Static.channelMessage 0x93) = 2 ∧
      channelMessageLength (Static.channelMessage 0x9C) =
        channelMessageLength (Static.channelMessage 0x93) :=
  ⟨(channelMessageLength_table 0x93 (by decide)).1 (by decide),
    (channelMessageLength_table 0x93 (by decide)).2.2.2 0x9C (by decide) (by decide)⟩

/-- C11: the data-byte count of a status byte read as a system message is 1
exactly for TimeCode and SongSelect, 2 exactly for SongPosition and 0 for
every other byte: SystemExclusive, TuneRequest, EndOfExclusive, the reserved
0xF4 and 0xF5 and every real-time byte from 0xF8 on; the lookup is a total
function, so it always gives one of these three values. -/
theorem systemMessageLength_table (s : Nat) (hs : s < 256) :
    (systemMessageLength (Static.systemMessage s) = 1 ↔ s = TimeCode ∨ s = SongSelect) ∧
    (systemMessageLength (Static.systemMessage s) = 2 ↔ s = SongPosition) ∧
    (systemMessageLength (Static.systemMessage s) = 0 ↔
      s ≠ TimeCode ∧ s ≠ SongSelect ∧ s ≠ SongPosition) ∧
    (0xF8 ≤ s → systemMessageLength (Static.systemMessage s) = 0) ∧
    systemMessageLength (Static.systemMessage SystemExclusive) = 0 ∧
    systemMessageLength (Static.systemMessage TuneRequest) = 0 ∧
    systemMessageLength (Static.systemMessage EndOfExclusive) = 0 ∧
    systemMessageLength (Static.systemMessage 0xF4) = 0 ∧
    systemMessageLength (Static.systemMessage 0xF5) = 0 := by
  revert s
  set_option maxRecDepth 100000 in
  set_option synthInstance.maxSize 2000 in
  decide

/-- SongPosition has 2 data bytes and the real-time byte Start has none. -/
theorem systemMessageLength_table_witness :
    systemMessageLength (Static.systemMessage SongPosition) = 2 ∧
      systemMessageLength (Static.systemMessage Start) = 0 :=
  ⟨(systemMessageLength_table SongPosition (by decide)).2.1.mpr rfl,
    (systemMessageLength_table Start (by decide)).2.2.2.1 (by decide)⟩

/-- The seven exact-match predicates on a status byte: each tests the masked
high nibble, at most one holds, and one holds exactly on channel messages. -/
theorem exact_match_status :
    ∀ s, s < 256 →
      ((Static.isChannelMessageT NoteOff s = true ↔ s &&& 0xF0 = NoteOff) ∧
        (Static.isChannelMessageT NoteOn s = true ↔ s &&& 0xF0 = NoteOn) ∧
        (Static.isChannelMessageT KeyPressure s = true ↔ s &&& 0xF0 = KeyPressure) ∧
        (Static.isChannelMessageT ControlChange s = true ↔ s &&& 0xF0 = ControlChange) ∧
        (Static.isChannelMessageT ProgramChange s = true ↔ s &&& 0xF0 = ProgramChange) ∧
        (Static.isChannelMessageT ChannelPressure s = true ↔ s &&& 0xF0 = ChannelPressure) ∧
        (Static.isChannelMessageT PitchBend s = true ↔ s &&& 0xF0 = PitchBend)) ∧
      List.count true
        [Static.isChannelMessageT NoteOff s, Static.isChannelMessageT NoteOn s,
          Static.isChannelMessageT KeyPressure s, Static.isChannelMessageT ControlChange s,
          Static.isChannelMessageT ProgramChange s, Static.isChannelMessageT ChannelPressure s,
          Static.isChannelMessageT PitchBend s] ≤ 1 ∧
      (List.count true
        [Static.isChannelMessageT NoteOff s, Static.isChannelMessageT NoteOn s,
          Static.isChannelMessageT KeyPressure s, Static.isChannelMessageT ControlChange s,
          Static.isChannelMessageT ProgramChange s, Static.isChannelMessageT ChannelPressure s,
          Static.isChannelMessageT PitchBend s] = 1 ↔ Static.isChannelMessage s = true) := by
  set_option maxRecDepth 100000 in
  set_option synthInstance.maxSize 2000 in
  decide

/-- C12: on a message with any status byte, each of the seven exact-match
predicates holds exactly when the status byte masked with 0xF0 is its
enumerator, whatever the channel nibble; at most one of the seven holds, and
exactly one holds if and only if the message is a channel message. -/
theorem exact_match_predicates (m : MidiMessage) (hs : m.status < 256) :
    ((m.isNoteOff = true ↔ m.status &&& 0xF0 = NoteOff) ∧
      (m.isNoteOn = true ↔ m.status &&& 0xF0 = NoteOn) ∧
      (m.isKeyPressure = true ↔ m.status &&& 0xF0 = KeyPressure) ∧
      (m.isControlChange = true ↔ m.status &&& 0xF0 = ControlChange) ∧
      (m.isProgramChange = true ↔ m.status &&& 0xF0 = ProgramChange) ∧
      (m.isChannelPressure = true ↔ m.status &&& 0xF0 = ChannelPressure) ∧
      (m.isPitchBend = true ↔ m.status &&& 0xF0 = PitchBend)) ∧
    List.count true
      [m.isNoteOff, m.isNoteOn, m.isKeyPressure, m.isControlChange, m.isProgramChange,
        m.isChannelPressure, m.isPitchBend] ≤ 1 ∧
    (List.count true
      [m.isNoteOff, m.isNoteOn, m.isKeyPressure, m.isControlChange, m.isProgramChange,
        m.isChannelPressure, m.isPitchBend] = 1 ↔ m.isChannelMessage = true) :=
  exact_match_status m.status hs

/-- The 3-byte message C5 3C 40 is a ProgramChange and a channel message. -/
theorem exact_match_predicates_witness :
    (ctor3 0xC5 0x3C 0x40).isProgramChange = true ∧
      (ctor3 0xC5 0x3C 0x40).isChannelMessage = true :=
  ⟨((exact_match_predicates (ctor3 0xC5 0x3C 0x40) (by decide)).1.2.2.2.2.1).mpr (by decide),
    ((exact_match_predicates (ctor3 0xC5 0x3C 0x40) (by decide)).2.2).mp (by decide)⟩

/-- C13: the constructors store their bytes as given and set the length to
their arity, 1, 2 or 3; the default constructor gives length 0; nothing ties
the stored length to the status byte: the 3-byte message C0 00 00 is a
ProgramChange of stored length 3 while one plus its data-byte count is 2. -/
theorem raw_construction (status data0 data1 : Nat) (indeterminate : Nat × Nat × Nat) :
    ((ctor1 status).length = 1 ∧ (ctor1 status).status = status) ∧
    ((ctor2 status data0).length = 2 ∧ (ctor2 status data0).status = status ∧
      (ctor2 status data0).data0 = data0) ∧
    ((ctor3 status data0 data1).length = 3 ∧ (ctor3 status data0 data1).status = status ∧
      (ctor3 status data0 data1).data0 = data0 ∧ (ctor3 status data0 data1).data1 = data1) ∧
    (ctor0 indeterminate).length = 0 ∧
    ((ctor3 ProgramChange 0 0).isProgramChange = true ∧
      (ctor3 ProgramChange 0 0).channelMessage = ProgramChange ∧
      (ctor3 ProgramChange 0 0).length = 3 ∧
      1 + channelMessageLength (ctor3 ProgramChange 0 0).channelMessage = 2) :=
  ⟨⟨rfl, rfl⟩, ⟨rfl, rfl, rfl⟩, ⟨rfl, rfl, rfl, rfl⟩, rfl, by decide⟩

/-- The clamp expression of `makePitchBend` is constant: the inner `std::max`
is at least 0x3fff, so the outer `std::min` with 0 is 0. -/
theorem makePitchBendClamp_eq_zero (v : Int) : makePitchBendClamp v = 0 := by
  unfold makePitchBendClamp stdMin stdMax
  split_ifs <;> omega

/-- The message `makePitchBend` builds, whatever the value: both data bytes 0. -/
theorem makePitchBend_eq (channel : Nat) (v : Int) :
    makePitchBend channel v = ctor3 (toUInt8 (PitchBend ||| channel)) 0 0 := by
  have h0 : intToUInt8 (Int.land 0 0x7f) = 0 := by decide
  have h1 : intToUInt8 (Int.land ((0 : Int) >>> 7) 0x7f) = 0 := by decide
  show ctor3 _ (intToUInt8 (Int.land (makePitchBendClamp v) 0x7f))
    (intToUInt8 (Int.land (makePitchBendClamp v >>> 7) 0x7f)) = _
  rw [makePitchBendClamp_eq_zero, h0, h1]

/-- The value `pitchBend()` decodes from a 3-byte message with a 7-bit `data0`. -/
theorem pitchBend_ctor3 (status data0 data1 : Nat) (h0 : data0 < 128) :
    (ctor3 status data0 data1).pitchBend = (data1 : Int) * 128 + (data0 : Int) - 8192 := by
  show (((data1 <<< 7) ||| data0 : Nat) : Int) - (0x2000 : Int) = _
  rw [shiftLeft7_lor data1 data0 h0]
  push_cast
  rfl

/-- C14, as stated, fails: no input outside [-8192, 8191] whose re-centring
does not overflow a 32-bit `int` makes the clamp expression leave the
interval [0, 0x3fff]. -/
theorem makePitchBendClamp_never_outside :
    ¬ ∃ v : Int, (v < -8192 ∨ 8191 < v) ∧
      (-2147483648 ≤ v ∧ v + 0x2000 ≤ 2147483647) ∧
      (makePitchBendClamp v < 0 ∨ 0x3fff < makePitchBendClamp v) := by
  rintro ⟨v, -, -, h⟩
  rw [makePitchBendClamp_eq_zero] at h
  omega

/-- C14, amended: the clamp expression always gives a value inside
[0, 0x3fff], but for an input above 8191 that value is neither the upper
bound 0x3fff, which clamping would give, nor the re-centred input. -/
theorem makePitchBendClamp_not_nearest_bound (v : Int) :
    (0 ≤ makePitchBendClamp v ∧ makePitchBendClamp v ≤ 0x3fff) ∧
    (8191 < v → makePitchBendClamp v ≠ 0x3fff ∧ makePitchBendClamp v ≠ v + 0x2000) := by
  rw [makePitchBendClamp_eq_zero]
  refine ⟨⟨by omega, by omega⟩, fun h => ⟨by omega, by omega⟩⟩

/-- The input 10000 is above 8191 and its clamp value is not 0x3fff. -/
theorem makePitchBendClamp_not_nearest_bound_witness :
    makePitchBendClamp 10000 ≠ 0x3fff ∧ makePitchBendClamp 10000 ≠ 10000 + 0x2000 :=
  (makePitchBendClamp_not_nearest_bound 10000).2 (by decide)

/-- C15: the enumerators satisfy the predicate of their own category, while the
reserved bytes 0xF4 and 0xF5 are system messages and 0xF9 and 0xFD real-time
messages that equal no enumerator, so that every exact-match predicate of
the category is false on a message with such a status byte. -/
theorem enumerators_and_reserved (m : MidiMessage) :
    (∀ e, e ∈ [NoteOff, NoteOn, KeyPressure, ControlChange, ProgramChange, ChannelPressure,
        PitchBend] → Static.isChannelMessage e = true) ∧
    (∀ e, e ∈ [SystemExclusive, TimeCode, SongPosition, SongSelect, TuneRequest,
        EndOfExclusive] → Static.isSystemMessage e = true) ∧
    (∀ e, e ∈ [Tick, Start, Continue, Stop, ActiveSensing, Reset] →
        Static.isRealTimeMessage e = true) ∧
    (m.status = 0xF4 ∨ m.status = 0xF5 →
      m.isSystemMessage = true ∧
      m.status ∉ [SystemExclusive, TimeCode, SongPosition, SongSelect, TuneRequest,
        EndOfExclusive] ∧
      m.isSystemExclusive = false ∧ m.isTimeCode = false ∧ m.isSongPosition = false ∧
      m.isSongSelect = false ∧ m.isTuneRequest = false) ∧
    (m.status = 0xF9 ∨ m.status = 0xFD →
      m.isRealTimeMessage = true ∧
      m.status ∉ [Tick, Start, Continue, Stop, ActiveSensing, Reset] ∧
      m.isTick = false ∧ m.isStart = false ∧ m.isContinue = false ∧ m.isStop = false ∧
      m.isActiveSensing = false ∧ m.isReset = false) := by
  have sys : ∀ s, s = 0xF4 ∨ s = 0xF5 →
      Static.isSystemMessage s = true ∧
      s ∉ [SystemExclusive, TimeCode, SongPosition, SongSelect, TuneRequest,
        EndOfExclusive] ∧
      Static.isSystemMessageT SystemExclusive s = false ∧
      Static.isSystemMessageT TimeCode s = false ∧
      Static.isSystemMessageT SongPosition s = false ∧
      Static.isSystemMessageT SongSelect s = false ∧
      Static.isSystemMessageT TuneRequest s = false := by
    rintro s (rfl | rfl) <;> decide
  have rt : ∀ s, s = 0xF9 ∨ s = 0xFD →
      Static.isRealTimeMessage s = true ∧
      s ∉ [Tick, Start, Continue, Stop, ActiveSensing, Reset] ∧
      Static.isRealTimeMessageT Tick s = false ∧
      Static.isRealTimeMessageT Start s = false ∧
      Static.isRealTimeMessageT Continue s = false ∧
      Static.isRealTimeMessageT Stop s = false ∧
      Static.isRealTimeMessageT ActiveSensing s = false ∧
      Static.isRealTimeMessageT Reset s = false := by
    rintro s (rfl | rfl) <;> decide
  exact ⟨by decide, by decide, by decide, sys m.status, rt m.status⟩

/-- The one-byte message F4 is a system message that is not a tune request, and
the one-byte message FD a real-time message that is not a reset. -/
theorem enumerators_and_reserved_witness :
    ((ctor1 0xF4).isSystemMessage = true ∧ (ctor1 0xF4).isTuneRequest = false) ∧
      ((ctor1 0xFD).isRealTimeMessage = true ∧ (ctor1 0xFD).isReset = false) :=
  ⟨⟨((enumerators_and_reserved (ctor1 0xF4)).2.2.2.1 (Or.inl rfl)).1,
      ((enumerators_and_reserved (ctor1 0xF4)).2.2.2.1 (Or.inl rfl)).2.2.2.2.2.2⟩,
    ⟨((enumerators_and_reserved (ctor1 0xFD)).2.2.2.2 (Or.inr rfl)).1,
      ((enumerators_and_reserved (ctor1 0xFD)).2.2.2.2 (Or.inr rfl)).2.2.2.2.2.2.2⟩⟩

/-- The NoteOn status byte built from an arbitrary channel byte: the channel is
or-ed in unmasked. -/
theorem noteOn_status_byte :
    ∀ c, c < 256 →
      toUInt8 (NoteOn ||| c) = 0x90 ||| c ∧
      toUInt8 (toUInt8 (NoteOn ||| c) &&& 0xf) = c &&& 0x0F ∧
      (Static.isChannelMessageT NoteOn (toUInt8 (NoteOn ||| c)) = true ↔ c &&& 0x60 = 0) ∧
      0x80 ≤ toUInt8 (NoteOn ||| c) ∧
      List.count true
        [Static.isChannelMessage (toUInt8 (NoteOn ||| c)),
          Static.isSystemMessage (toUInt8 (NoteOn ||| c)),
          Static.isRealTimeMessage (toUInt8 (NoteOn ||| c))] = 1 := by
  set_option maxRecDepth 100000 in
  set_option synthInstance.maxSize 2000 in
  decide

/-- C16: for every channel byte, in range or not, `makeNoteOn` has the status
byte `0x90 | c`, so its channel is `c & 0x0F` and it is a NoteOn exactly when
`c & 0x60` is 0; the channel 0x20 gives the status byte 0xB0, which is not a
NoteOn; the status byte is always at least 0x80 and falls in exactly one of
the three categories. -/
theorem makeNoteOn_unchecked_channel (c n v : Nat) (hc : c < 256) :
    (makeNoteOn c n v).status = 0x90 ||| c ∧
    (makeNoteOn c n v).channel = c &&& 0x0F ∧
    ((makeNoteOn c n v).isNoteOn = true ↔ c &&& 0x60 = 0) ∧
    0x80 ≤ (makeNoteOn c n v).status ∧
    List.count true
      [(makeNoteOn c n v).isChannelMessage, (makeNoteOn c n v).isSystemMessage,
        (makeNoteOn c n v).isRealTimeMessage] = 1 ∧
    ((makeNoteOn 0x20 n v).status = 0xB0 ∧ (makeNoteOn 0x20 n v).isNoteOn = false) := by
  have key := noteOn_status_byte c hc
  have k20 := noteOn_status_byte 0x20 (by decide)
  refine ⟨key.1, key.2.1, key.2.2.1, key.2.2.2.1, key.2.2.2.2, k20.1, ?_⟩
  cases h : (makeNoteOn 0x20 n v).isNoteOn
  · rfl
  · exact absurd (k20.2.2.1.mp h) (by decide)

/-- The channel byte 0x4A gives the status byte 0xDA, of channel 0x0A, which is
not a NoteOn. -/
theorem makeNoteOn_unchecked_channel_witness :
    (makeNoteOn 0x4A 60 100).status = 0xDA ∧ (makeNoteOn 0x4A 60 100).channel = 0x0A ∧
      ¬ (makeNoteOn 0x4A 60 100).isNoteOn = true :=
  ⟨(makeNoteOn_unchecked_channel 0x4A 60 100 (by decide)).1,
    (makeNoteOn_unchecked_channel 0x4A 60 100 (by decide)).2.1,
    fun h => absurd ((makeNoteOn_unchecked_channel 0x4A 60 100 (by decide)).2.2.1.mp h)
      (by decide)⟩

/-- The PitchBend status byte built from an arbitrary channel byte. -/
theorem pitchBend_status_byte :
    ∀ c, c < 256 → toUInt8 (PitchBend ||| c) = 0xE0 ||| c := by
  set_option maxRecDepth 100000 in decide

/-- C17: `makePitchBend` ignores its value: for every channel byte and every
value (the re-centring addition taken in the integers, so whenever it does
not overflow) the clamp expression is 0, the message has length 3, the
status byte `0xE0 | channel` and both data bytes 0, and it decodes to -8192;
so the round trip through `pitchBend()` holds exactly for the value -8192. -/
theorem makePitchBend_ignores_value (channel : Nat) (hc : channel < 256) (v : Int) :
    makePitchBendClamp v = 0 ∧
    (makePitchBend channel v).length = 3 ∧
    (makePitchBend channel v).status = 0xE0 ||| channel ∧
    (makePitchBend channel v).data0 = 0 ∧
    (makePitchBend channel v).data1 = 0 ∧
    (makePitchBend channel v).pitchBend = -8192 ∧
    ((makePitchBend channel v).pitchBend = v ↔ v = -8192) := by
  have e := makePitchBend_eq channel v
  have p : (makePitchBend channel v).pitchBend = -8192 := by
    rw [e, pitchBend_ctor3 _ 0 0 (by decide)]
    decide
  refine ⟨makePitchBendClamp_eq_zero v, ?_, ?_, ?_, ?_, p, ?_⟩
  · rw [e]
    rfl
  · rw [e]
    exact pitchBend_status_byte channel hc
  · rw [e]
    rfl
  · rw [e]
    rfl
  · rw [p]
    exact ⟨fun h => h.symm, fun h => h.symm⟩

/-- On channel 3 the value 8191 is built as E3 00 00 and decodes to -8192. -/
theorem makePitchBend_ignores_value_witness :
    (makePitchBend 3 8191).status = 0xE3 ∧ (makePitchBend 3 8191).data0 = 0 ∧
      (makePitchBend 3 8191).data1 = 0 ∧ (makePitchBend 3 8191).pitchBend = -8192 :=
  ⟨(makePitchBend_ignores_value 3 (by decide) 8191).2.2.1,
    (makePitchBend_ignores_value 3 (by decide) 8191).2.2.2.1,
    (makePitchBend_ignores_value 3 (by decide) 8191).2.2.2.2.1,
    (makePitchBend_ignores_value 3 (by decide) 8191).2.2.2.2.2.1⟩

/-- C18: for a value between -8192 and 8191 exactly one pair of 7-bit data
bytes decodes to it through `pitchBend()`: the low 7 bits of the value plus
8192 as `data0` and the next 7 bits as `data1`. -/
theorem pitchBend_decoder_bijective (v : Int) (hlo : -8192 ≤ v) (hhi : v ≤ 8191)
    (status : Nat) :
    (∃ d0 d1 : Nat, d0 < 128 ∧ d1 < 128 ∧
      (d0 : Int) = Int.land (v + 8192) 0x7F ∧
      (d1 : Int) = Int.land ((v + 8192) >>> 7) 0x7F ∧
      (ctor3 status d0 d1).pitchBend = v) ∧
    (∀ d0 d1 : Nat, d0 < 128 → d1 < 128 → (ctor3 status d0 d1).pitchBend = v →
      (d0 : Int) = Int.land (v + 8192) 0x7F ∧
      (d1 : Int) = Int.land ((v + 8192) >>> 7) 0x7F) := by
  obtain ⟨n, hn⟩ := Int.eq_ofNat_of_zero_le (show 0 ≤ v + 8192 by omega)
  have a0 : n &&& 0x7F = n % 128 := Nat.and_pow_two_sub_one_eq_mod n 7
  have a1 : (n >>> 7) &&& 0x7F = (n >>> 7) % 128 := Nat.and_pow_two_sub_one_eq_mod (n >>> 7) 7
  have a2 : n >>> 7 = n / 128 := Nat.shiftRight_eq_div_pow n 7
  have e0 : Int.land (v + 8192) 0x7F = ((n % 128 : Nat) : Int) := by
    rw [hn, ← a0]
    rfl
  have e1 : Int.land ((v + 8192) >>> 7) 0x7F = (((n / 128) % 128 : Nat) : Int) := by
    rw [hn, ← a2, ← a1]
    rfl
  rw [e0, e1]
  constructor
  · refine ⟨n % 128, (n / 128) % 128, by omega, by omega, rfl, rfl, ?_⟩
    rw [pitchBend_ctor3 status _ _ (by omega)]
    push_cast
    omega
  · intro d0 d1 h0 h1 hp
    rw [pitchBend_ctor3 status d0 d1 h0] at hp
    push_cast
    omega

/-- The data bytes 0x00, 0x40, which decode to the centre value 0, are the low
and the high 7 bits of 0 + 8192. -/
theorem pitchBend_decoder_bijective_witness :
    ((0 : Nat) : Int) = Int.land (0 + 8192) 0x7F ∧
      ((0x40 : Nat) : Int) = Int.land ((0 + 8192) >>> 7) 0x7F :=
  (pitchBend_decoder_bijective 0 (by decide) (by decide) 0xE0).2 0 0x40
    (by decide) (by decide) (by decide)

/-- C19: the 1-byte constructor leaves both data slots 0 and the 2-byte
constructor leaves the second one 0, so the messages of `makeProgramChange`
and `makeChannelPressure` read 0 through `data1()`, `velocity()`,
`keyPressure()` and `controllerValue()`. -/
theorem short_constructors_zero_fill (s d c p : Nat) :
    ((ctor1 s).data0 = 0 ∧ (ctor1 s).data1 = 0) ∧
    (ctor2 s d).data1 = 0 ∧
    ((makeProgramChange c p).data1 = 0 ∧ (makeProgramChange c p).velocity = 0 ∧
      (makeProgramChange c p).keyPressure = 0 ∧
      (makeProgramChange c p).controllerValue = 0) ∧
    ((makeChannelPressure c p).data1 = 0 ∧ (makeChannelPressure c p).velocity = 0 ∧
      (makeChannelPressure c p).keyPressure = 0 ∧
      (makeChannelPressure c p).controllerValue = 0) :=
  ⟨⟨rfl, rfl⟩, rfl, ⟨rfl, rfl, rfl, rfl⟩, ⟨rfl, rfl, rfl, rfl⟩⟩

end MidiMessage
